import Mathlib

/-!
Shallow embedding of `src/servidor.py` (PFO2 — Flask + SQLite task service).

The SQLite tables `usuarios` and `tareas` are modelled as lists of rows
inside a `DB` record; `AUTOINCREMENT` ids are modelled with explicit
`nextUserId` / `nextTaskId` counters; `CURRENT_TIMESTAMP` defaults are
modelled by passing the clock value `now : Nat` explicitly.  The external
collaborators (werkzeug password hashing, itsdangerous token signing,
Python builtins `str.split` / `str.strip` / `int` / `str`) are modelled
from the spec as noted on each definition.
-/

namespace PFO2

/-- Default of config `TOKEN_EXPIRATION_SECONDS` (`PFO2_TOKEN_TTL`, default 3600). -/
def TOKEN_EXPIRATION_SECONDS_default : Nat := 3600

/-- ASCII whitespace recognised by Python `str.split()` / `str.strip()`. -/
def isPyWs (c : Char) : Bool :=
  c = ' ' || c = '\t' || c = '\n' || c = '\r' || c = '\x0b' || c = '\x0c'

/-- Modelled from the spec: Python `str.strip()` (ASCII fragment) — removes
leading and trailing whitespace characters. -/
def pyStrip (s : String) : String :=
  String.mk (((s.toList.dropWhile isPyWs).reverse.dropWhile isPyWs).reverse)

/-- Helper for `pySplit`: walks the character list keeping the (reversed)
current word in `acc`; whitespace closes the word, and empty words are
never produced. -/
def splitWsAux : List Char → List Char → List String
  | [], acc => if acc.isEmpty then [] else [String.mk acc.reverse]
  | c :: cs, acc =>
    if isPyWs c then
      if acc.isEmpty then splitWsAux cs [] else String.mk acc.reverse :: splitWsAux cs []
    else splitWsAux cs (c :: acc)

/-- Modelled from the spec: Python `str.split()` with no argument — splits on
runs of whitespace and never yields empty parts. -/
def pySplit (s : String) : List String :=
  splitWsAux s.toList []

/-- Modelled from the spec: Python `str.lower()` (ASCII fragment, which is
extensionally adequate for comparison against `"bearer"`). -/
def pyLowerChar (c : Char) : Char :=
  if 'A' ≤ c && c ≤ 'Z' then Char.ofNat (c.toNat + 32) else c

/-- Modelled from the spec: Python `str.lower()` applied to a whole string. -/
def pyLower (s : String) : String :=
  String.mk (s.toList.map pyLowerChar)

/-- Scalar JSON values as Python objects (the fragment the claims need:
booleans, integers, strings; `null` is represented as absence because
`dict.get` returns `None` for both). -/
inductive JVal where
  | jbool (b : Bool)
  | jint (n : Int)
  | jstr (s : String)
deriving DecidableEq, Repr

/-- Modelled from the spec: Python `str(...)` on a scalar JSON value. -/
def pyStr : JVal → String
  | .jbool true => "True"
  | .jbool false => "False"
  | .jint n => toString n
  | .jstr s => s

/-- Digit-string value: `none` unless the list is a nonempty run of ASCII digits. -/
def digitsToNat? (l : List Char) : Option Nat :=
  match l with
  | [] => none
  | _ => l.foldl
      (fun acc c =>
        match acc with
        | some n => if c.isDigit then some (n * 10 + (c.toNat - 48)) else none
        | none => none)
      (some 0)

/-- Modelled from the spec: Python `int(s)` on a string (ASCII fragment,
no underscores) — strips whitespace, optional sign, then digits; raises
`ValueError` otherwise. -/
def pyIntOfStr (s : String) : Option Int :=
  match (pyStrip s).toList with
  | '+' :: rest => (digitsToNat? rest).map Int.ofNat
  | '-' :: rest => (digitsToNat? rest).map (fun n => -(n : Int))
  | rest => (digitsToNat? rest).map Int.ofNat

/-- Modelled from the spec: Python `int(...)` on a scalar JSON value.
Booleans coerce to 0/1, integers are returned, strings are parsed
(`ValueError` when not an integer literal). -/
def pyInt : JVal → Except String Int
  | .jbool b => .ok (if b then 1 else 0)
  | .jint n => .ok n
  | .jstr s =>
    match pyIntOfStr s with
    | some n => .ok n
    | none => .error "ValueError"

/-- Modelled from the spec: the opaque value produced by the external
Password Hashing collaborator (werkzeug `generate_password_hash`).  It is
a distinct type from `String`, so a stored `PasswordHash` is never the
plaintext; verification is the contract
`check_password_hash (generate_password_hash p) q = (p = q)`. -/
structure PasswordHash where
  commit : String
deriving DecidableEq, Repr

/-- Modelled from the spec: werkzeug `generate_password_hash` (one-way salted
hash, idealised as a commitment to the password). -/
def generate_password_hash (password : String) : PasswordHash :=
  { commit := password }

/-- Modelled from the spec: werkzeug `check_password_hash`. -/
def check_password_hash (h : PasswordHash) (password : String) : Bool :=
  h.commit == password

/-- Modelled from the spec: a token produced by itsdangerous
`URLSafeTimedSerializer(SECRET_KEY).dumps({"sub": username})` — a signed,
self-contained value carrying the subject claim, the issuance timestamp,
and the signing key (signature validity is modelled as key equality). -/
structure Token where
  sub : String
  issuedAt : Nat
  key : String
deriving DecidableEq, Repr

/-- Modelled from the spec: `serializer.dumps({"sub": username})` signs the
payload with the process-wide key and binds the issuance timestamp. -/
def serializer_dumps (key sub : String) (now : Nat) : Token :=
  { sub := sub, issuedAt := now, key := key }

/-- Modelled from the spec: `serializer.loads(token, max_age)` — raises
`BadSignature` (here: `none`) when the signature key does not match, and
`SignatureExpired` (here: `none`) when the elapsed age exceeds `max_age`. -/
def serializer_loads (key : String) (maxAge now : Nat) (tok : Token) : Option String :=
  if tok.key = key then
    if now - tok.issuedAt ≤ maxAge then some tok.sub else none
  else none

/-- Function `generate_token` from `servidor.py`. -/
def generate_token (key username : String) (now : Nat) : Token :=
  serializer_dumps key username now

/-- Function `verify_token` from `servidor.py`: `serializer.loads` with
`max_age = TOKEN_EXPIRATION_SECONDS`, then `data.get("sub")`; the two
exception classes are caught and become `None`. -/
def verify_token (key : String) (ttl now : Nat) (tok : Token) : Option String :=
  serializer_loads key ttl now tok

/-- Function `require_user` from `servidor.py`, parameterised by the token-string
verifier (in the program, `verify_token` applied to the wire-format token):
reads the `Authorization` header (empty default), splits it on whitespace,
and accepts only `Bearer <token>` — exactly two parts, case-insensitive
scheme. -/
def require_user (verify : String → Option String) (authHeader : Option String) :
    Option String :=
  let auth := authHeader.getD ""
  let parts := pySplit auth
  match parts with
  | [p0, p1] => if pyLower p0 = "bearer" then verify p1 else none
  | _ => none

/-- Python truthiness of the `Optional[str]` returned by `require_user`
(`if not username`): `None` and the empty string are falsy. -/
def pyTruthyStr : Option String → Bool
  | none => false
  | some s => s != ""

/-- Status code of the protected route `GET /tareas`: 401 when
`require_user` yields no (truthy) identity, 200 otherwise. -/
def tareas_route (verify : String → Option String) (authHeader : Option String) : Nat :=
  if pyTruthyStr (require_user verify authHeader) then 200 else 401

/-- A row of table `usuarios(id, usuario UNIQUE, password_hash, creado_en)`. -/
structure UserRow where
  id : Nat
  usuario : String
  password_hash : PasswordHash
  creado_en : Nat
deriving DecidableEq, Repr

/-- A row of table `tareas(id, titulo, hecha, usuario_id, creada_en)`. -/
structure TaskRow where
  id : Nat
  titulo : String
  hecha : Int
  usuario_id : Nat
  creada_en : Nat
deriving DecidableEq, Repr

/-- The SQLite database: both tables plus the `AUTOINCREMENT` counters. -/
structure DB where
  usuarios : List UserRow
  tareas : List TaskRow
  nextUserId : Nat
  nextTaskId : Nat
deriving DecidableEq, Repr

/-- Function `get_user_by_username` from `servidor.py`:
`SELECT id, usuario, password_hash FROM usuarios WHERE usuario = ?`. -/
def get_user_by_username (db : DB) (username : String) : Option UserRow :=
  db.usuarios.find? (fun r => r.usuario == username)

/-- Function `get_user_id` from `servidor.py`:
`SELECT id FROM usuarios WHERE usuario = ?`. -/
def get_user_id (db : DB) (username : String) : Option Nat :=
  (db.usuarios.find? (fun r => r.usuario == username)).map (fun r => r.id)

/-- The `INSERT INTO usuarios` statement: the `UNIQUE` constraint on
`usuario` raises `IntegrityError` on a duplicate, otherwise the row is
appended with the next `AUTOINCREMENT` id. -/
def insertUsuario (db : DB) (username : String) (ph : PasswordHash) (now : Nat) :
    Except String DB :=
  if db.usuarios.any (fun r => r.usuario == username) then .error "IntegrityError"
  else .ok { db with
    usuarios := db.usuarios ++
      [{ id := db.nextUserId, usuario := username, password_hash := ph, creado_en := now }],
    nextUserId := db.nextUserId + 1 }

/-- Function `create_user` from `servidor.py`.  The pre-lookup and the insert open two
separate SQLite connections, so the function is parameterised over the
database state seen by each (`dbLookup` at `get_user_by_username` time,
`dbInsert` at insert time); sequential execution instantiates both with the
same state.  Returns the `(ok, message)` pair together with the resulting
database state. -/
def create_user (dbLookup dbInsert : DB) (username password : String) (now : Nat) :
    (Bool × String) × DB :=
  if username = "" || password = "" then
    ((false, "Usuario y contraseña son obligatorios."), dbInsert)
  else if (get_user_by_username dbLookup username).isSome then
    ((false, "El usuario ya existe."), dbInsert)
  else
    match insertUsuario dbInsert username (generate_password_hash password) now with
    | .ok db' => ((true, "Usuario creado con éxito."), db')
    | .error _ => ((false, "El usuario ya existe."), dbInsert)

/-- Outcome of `POST /login`: either 401 `Credenciales inválidas` (no token
in the body) or 200 with the token and `expira_en`. -/
inductive LoginResult where
  | invalid
  | success (token : Token) (expira_en : Nat)
deriving DecidableEq, Repr

/-- HTTP status of a `LoginResult`. -/
def LoginResult.status : LoginResult → Nat
  | .invalid => 401
  | .success _ _ => 200

/-- The `login` endpoint from `servidor.py` (after JSON parsing and
stripping of the credential fields): user lookup, hash check, token issue. -/
def login (db : DB) (key : String) (ttl now : Nat) (username password : String) :
    LoginResult :=
  match get_user_by_username db username with
  | none => .invalid
  | some row =>
    if check_password_hash row.password_hash password then
      .success (generate_token key username now) ttl
    else .invalid

/-- Outcome of `POST /tareas`: 400 `titulo es obligatorio`, or 201 with the
new id and the stored title (`hecha` is reported as 0). -/
inductive CrearResult where
  | badRequest (msg : String)
  | created (id : Nat) (titulo : String)
deriving DecidableEq, Repr

/-- HTTP status of a `CrearResult`. -/
def CrearResult.status : CrearResult → Nat
  | .badRequest _ => 400
  | .created _ _ => 201

/-- Endpoint `crear_tarea` from `servidor.py`, after authentication resolved the
owner id `uid`.  The `titulo` field is `(request.json.get("titulo") or "")`
then `.strip()`; an absent or `null` field is `none`.  On success the task
is inserted with `hecha` defaulting to 0. -/
def crear_tarea (db : DB) (uid : Nat) (tituloField : Option String) (now : Nat) :
    CrearResult × DB :=
  let titulo := pyStrip (tituloField.getD "")
  if titulo = "" then (.badRequest "titulo es obligatorio", db)
  else
    let tid := db.nextTaskId
    (.created tid titulo,
      { db with
        tareas := db.tareas ++
          [{ id := tid, titulo := titulo, hecha := 0, usuario_id := uid, creada_en := now }],
        nextTaskId := tid + 1 })

/-- Endpoint `listar_tareas` from `servidor.py`, after authentication:
`SELECT id, titulo, hecha, creada_en FROM tareas WHERE usuario_id=? ORDER BY id DESC`. -/
def listar_tareas (db : DB) (uid : Nat) : List TaskRow :=
  (db.tareas.filter (fun r => r.usuario_id == uid)).mergeSort
    (fun a b => decide (b.id ≤ a.id))

/-- Outcome of `PUT /tareas/<id>` (after authentication): 400
`Nada para actualizar`, an uncaught Python exception (HTTP 500) from
`int(hecha)`, 404 `No encontrada`, or 200. -/
inductive UpdResult where
  | badRequest (msg : String)
  | serverError (msg : String)
  | notFound
  | ok
deriving DecidableEq, Repr

/-- HTTP status of an `UpdResult`. -/
def UpdResult.status : UpdResult → Nat
  | .badRequest _ => 400
  | .serverError _ => 500
  | .notFound => 404
  | .ok => 200

/-- The row predicate of `WHERE id = ? AND usuario_id = ?`. -/
def hitRow (uid tid : Nat) (r : TaskRow) : Bool :=
  r.id == tid && r.usuario_id == uid

/-- Value `cur.rowcount` of the ownership-scoped `UPDATE`/`DELETE`: the number of
rows matching `id = tid AND usuario_id = uid`. -/
def tareasRowcount (db : DB) (uid tid : Nat) : Nat :=
  (db.tareas.filter (hitRow uid tid)).length

/-- Effect of one row under
`UPDATE tareas SET ... WHERE id = ? AND usuario_id = ?`: a matching row
receives the supplied fields, any other row is untouched. -/
def applyUpdate (uid tid : Nat) (newTitulo : Option String) (newHecha : Option Int)
    (r : TaskRow) : TaskRow :=
  if hitRow uid tid r then
    { r with titulo := newTitulo.getD r.titulo, hecha := newHecha.getD r.hecha }
  else r

/-- The `UPDATE tareas` statement applied to the whole table. -/
def sqlUpdateTareas (db : DB) (uid tid : Nat) (newTitulo : Option String)
    (newHecha : Option Int) : DB :=
  { db with tareas := db.tareas.map (applyUpdate uid tid newTitulo newHecha) }

/-- Coercion of the `hecha` field: `params.append(1 if int(hecha) else 0)`.
`int` can raise (`ValueError`/`TypeError`), which propagates as an uncaught
exception. -/
def coerceHecha : Option JVal → Except String (Option Int)
  | none => .ok none
  | some v =>
    match pyInt v with
    | .ok n => .ok (some (if n = 0 then 0 else 1))
    | .error e => .error e

/-- Endpoint `actualizar_tarea` from `servidor.py`, after authentication resolved
`uid`: builds the `SET` clause from the supplied `titulo`
(`str(titulo).strip()`) and `hecha` (`1 if int(hecha) else 0`), rejects an
empty clause with 400, then runs the ownership-scoped `UPDATE`; a zero
rowcount is 404. -/
def actualizar_tarea (db : DB) (uid tid : Nat) (titulo hecha : Option JVal) :
    UpdResult × DB :=
  let newTitulo := titulo.map (fun t => pyStrip (pyStr t))
  match coerceHecha hecha with
  | .error e => (.serverError e, db)
  | .ok newHecha =>
    if newTitulo.isNone && newHecha.isNone then
      (.badRequest "Nada para actualizar", db)
    else
      let db' := sqlUpdateTareas db uid tid newTitulo newHecha
      if tareasRowcount db uid tid = 0 then (.notFound, db')
      else (.ok, db')

/-- Outcome of `DELETE /tareas/<id>` (after authentication). -/
inductive DelResult where
  | notFound
  | ok
deriving DecidableEq, Repr

/-- HTTP status of a `DelResult`. -/
def DelResult.status : DelResult → Nat
  | .notFound => 404
  | .ok => 200

/-- Endpoint `borrar_tarea` from `servidor.py`, after authentication resolved `uid`:
`DELETE FROM tareas WHERE id = ? AND usuario_id = ?`; a zero rowcount is
404. -/
def borrar_tarea (db : DB) (uid tid : Nat) : DelResult × DB :=
  let db' := { db with tareas := db.tareas.filter (fun r => !(hitRow uid tid r)) }
  if tareasRowcount db uid tid = 0 then (.notFound, db')
  else (.ok, db')

/-! ## Helper lemmas -/

theorem hitRow_iff (uid tid : Nat) (r : TaskRow) :
    hitRow uid tid r = true ↔ r.id = tid ∧ r.usuario_id = uid := by
  simp [hitRow]

theorem hitRow_false_iff (uid tid : Nat) (r : TaskRow) :
    hitRow uid tid r = false ↔ ¬(r.id = tid ∧ r.usuario_id = uid) := by
  rw [← Bool.not_eq_true, hitRow_iff]

theorem tareasRowcount_eq_zero_iff (db : DB) (uid tid : Nat) :
    tareasRowcount db uid tid = 0 ↔
      ∀ r ∈ db.tareas, ¬(r.id = tid ∧ r.usuario_id = uid) := by
  unfold tareasRowcount
  rw [List.length_eq_zero, List.filter_eq_nil_iff]
  simp [hitRow_iff]

theorem applyUpdate_not_hit (uid tid : Nat) (nt : Option String) (nh : Option Int)
    (r : TaskRow) (h : ¬(r.id = tid ∧ r.usuario_id = uid)) :
    applyUpdate uid tid nt nh r = r := by
  simp [applyUpdate, (hitRow_false_iff uid tid r).mpr h]

theorem map_eq_self_of_fixed {α : Type} (f : α → α) (l : List α)
    (h : ∀ x ∈ l, f x = x) : l.map f = l := by
  induction l with
  | nil => rfl
  | cons a t ih =>
    simp only [List.map_cons, h a (by simp)]
    rw [ih (fun x hx => h x (List.mem_cons_of_mem a hx))]

theorem forall₂_map_self {α : Type} {R : α → α → Prop} (f : α → α) (l : List α)
    (h : ∀ x ∈ l, R x (f x)) : List.Forall₂ R l (l.map f) := by
  induction l with
  | nil => exact List.Forall₂.nil
  | cons a t ih =>
    exact List.Forall₂.cons (h a (by simp))
      (ih (fun x hx => h x (List.mem_cons_of_mem a hx)))

theorem sqlUpdateTareas_no_hit (db : DB) (uid tid : Nat) (nt : Option String)
    (nh : Option Int) (h : ∀ r ∈ db.tareas, ¬(r.id = tid ∧ r.usuario_id = uid)) :
    sqlUpdateTareas db uid tid nt nh = db := by
  unfold sqlUpdateTareas
  rw [map_eq_self_of_fixed _ _ (fun r hr => applyUpdate_not_hit uid tid nt nh r (h r hr))]

theorem borrar_tarea_snd (db : DB) (uid tid : Nat) :
    (borrar_tarea db uid tid).2 =
      { db with tareas := db.tareas.filter (fun r => !(hitRow uid tid r)) } := by
  unfold borrar_tarea
  split <;> rfl

theorem actualizar_tarea_hecha_int (db : DB) (uid tid : Nat) (titulo : Option JVal)
    (hv : JVal) (n : Int) (hpy : pyInt hv = Except.ok n) :
    actualizar_tarea db uid tid titulo (some hv) =
      (if tareasRowcount db uid tid = 0 then UpdResult.notFound else UpdResult.ok,
       sqlUpdateTareas db uid tid (titulo.map (fun t => pyStrip (pyStr t)))
         (some (if n = 0 then 0 else 1))) := by
  have hc : coerceHecha (some hv) = Except.ok (some (if n = 0 then 0 else 1)) := by
    simp [coerceHecha, hpy]
  simp only [actualizar_tarea, hc]
  simp only [Option.isNone_some, Bool.and_false, Bool.false_eq_true, if_false]
  split <;> rfl

theorem get_user_by_username_isSome (db : DB) (u : String)
    (hex : ∃ r ∈ db.usuarios, r.usuario = u) :
    (get_user_by_username db u).isSome = true := by
  simp only [get_user_by_username, List.find?_isSome]
  obtain ⟨r, hr, hru⟩ := hex
  exact ⟨r, hr, by simp [hru]⟩

theorem create_user_fail_dup_lookup (dbL dbI : DB) (u p : String) (now : Nat)
    (hex : ∃ r ∈ dbL.usuarios, r.usuario = u) :
    (create_user dbL dbI u p now).1.1 = false ∧ (create_user dbL dbI u p now).2 = dbI := by
  have hsome := get_user_by_username_isSome dbL u hex
  unfold create_user
  split
  · exact ⟨rfl, rfl⟩
  · simp [hsome]

theorem create_user_fail_dup_insert (dbL dbI : DB) (u p : String) (now : Nat)
    (hex : ∃ r ∈ dbI.usuarios, r.usuario = u) :
    (create_user dbL dbI u p now).1.1 = false ∧ (create_user dbL dbI u p now).2 = dbI := by
  have hany : dbI.usuarios.any (fun r => r.usuario == u) = true := by
    obtain ⟨r, hr, hru⟩ := hex
    exact List.any_eq_true.mpr ⟨r, hr, by simp [hru]⟩
  have hins : insertUsuario dbI u (generate_password_hash p) now =
      Except.error "IntegrityError" := by
    simp [insertUsuario, hany]
  unfold create_user
  split
  · exact ⟨rfl, rfl⟩
  · split
    · exact ⟨rfl, rfl⟩
    · rw [hins]
      exact ⟨rfl, rfl⟩

theorem actualizar_tarea_titulo_only (db : DB) (uid tid : Nat) (tv : JVal) :
    actualizar_tarea db uid tid (some tv) none =
      (if tareasRowcount db uid tid = 0 then UpdResult.notFound else UpdResult.ok,
       sqlUpdateTareas db uid tid (some (pyStrip (pyStr tv))) none) := by
  have h : actualizar_tarea db uid tid (some tv) none =
      (if tareasRowcount db uid tid = 0 then
        (UpdResult.notFound, sqlUpdateTareas db uid tid (some (pyStrip (pyStr tv))) none)
       else
        (UpdResult.ok, sqlUpdateTareas db uid tid (some (pyStrip (pyStr tv))) none)) := rfl
  rw [h]
  split <;> rfl

/-! ## Claim theorems -/

/-- Claim C1: the update and delete operations match only the row whose id
and `usuario_id` both equal the given task id and owner id (rows failing
the match survive both operations unchanged); whenever zero rows match —
missing id or foreign owner alike — the outcome is 404 `No encontrada`,
and no task row is modified (the caller sees the same `notFound` response
in both cases, so absence and foreign ownership are indistinguishable). -/
theorem c1_update_delete_ownership_scope (db : DB) (uid tid : Nat)
    (titulo : Option JVal) (n : Int) :
    (∀ r ∈ db.tareas, ¬(r.id = tid ∧ r.usuario_id = uid) →
      r ∈ (actualizar_tarea db uid tid titulo (some (JVal.jint n))).2.tareas ∧
      r ∈ (borrar_tarea db uid tid).2.tareas) ∧
    ((∀ r ∈ db.tareas, ¬(r.id = tid ∧ r.usuario_id = uid)) →
      actualizar_tarea db uid tid titulo (some (JVal.jint n)) = (UpdResult.notFound, db) ∧
      (∀ tv : JVal,
        actualizar_tarea db uid tid (some tv) none = (UpdResult.notFound, db)) ∧
      borrar_tarea db uid tid = (DelResult.notFound, db) ∧
      UpdResult.status UpdResult.notFound = 404 ∧
      DelResult.status DelResult.notFound = 404) := by
  constructor
  · intro r hr hmiss
    constructor
    · rw [actualizar_tarea_hecha_int db uid tid titulo (JVal.jint n) n rfl]
      have hfix : applyUpdate uid tid (titulo.map (fun t => pyStrip (pyStr t)))
          (some (if n = 0 then 0 else 1)) r = r :=
        applyUpdate_not_hit _ _ _ _ r hmiss
      simp only [sqlUpdateTareas, List.mem_map]
      exact ⟨r, hr, hfix⟩
    · rw [borrar_tarea_snd]
      exact List.mem_filter.mpr ⟨hr, by simp [(hitRow_false_iff uid tid r).mpr hmiss]⟩
  · intro h
    have hrc : tareasRowcount db uid tid = 0 := (tareasRowcount_eq_zero_iff db uid tid).mpr h
    have hfil : db.tareas.filter (fun r => !(hitRow uid tid r)) = db.tareas := by
      apply List.filter_eq_self.mpr
      intro r hr
      simp [(hitRow_false_iff uid tid r).mpr (h r hr)]
    refine ⟨?_, ?_, ?_, rfl, rfl⟩
    · rw [actualizar_tarea_hecha_int db uid tid titulo (JVal.jint n) n rfl, hrc,
        sqlUpdateTareas_no_hit db uid tid _ _ h]
      simp
    · intro tv
      rw [actualizar_tarea_titulo_only db uid tid tv, hrc,
        sqlUpdateTareas_no_hit db uid tid _ _ h]
      simp
    · simp [borrar_tarea, hrc, hfil]

/-- Witness for C1 on a concrete store: user 2 tries to update/delete task 1,
which belongs to user 1; both return 404 and leave the table unchanged, and
the foreign row survives. -/
theorem c1_witness :
    actualizar_tarea (DB.mk [UserRow.mk 1 "ana" (PasswordHash.mk "pw") 0]
        [TaskRow.mk 1 "Tarea" 0 1 0] 2 2) 2 1 none (some (JVal.jint 1)) =
      (UpdResult.notFound,
       DB.mk [UserRow.mk 1 "ana" (PasswordHash.mk "pw") 0] [TaskRow.mk 1 "Tarea" 0 1 0] 2 2) ∧
    actualizar_tarea (DB.mk [UserRow.mk 1 "ana" (PasswordHash.mk "pw") 0]
        [TaskRow.mk 1 "Tarea" 0 1 0] 2 2) 2 1 (some (JVal.jstr "X")) none =
      (UpdResult.notFound,
       DB.mk [UserRow.mk 1 "ana" (PasswordHash.mk "pw") 0] [TaskRow.mk 1 "Tarea" 0 1 0] 2 2) ∧
    borrar_tarea (DB.mk [UserRow.mk 1 "ana" (PasswordHash.mk "pw") 0]
        [TaskRow.mk 1 "Tarea" 0 1 0] 2 2) 2 1 =
      (DelResult.notFound,
       DB.mk [UserRow.mk 1 "ana" (PasswordHash.mk "pw") 0] [TaskRow.mk 1 "Tarea" 0 1 0] 2 2) ∧
    UpdResult.status UpdResult.notFound = 404 ∧
    DelResult.status DelResult.notFound = 404 := by
  have h := (c1_update_delete_ownership_scope
    (DB.mk [UserRow.mk 1 "ana" (PasswordHash.mk "pw") 0] [TaskRow.mk 1 "Tarea" 0 1 0] 2 2)
    2 1 none 1).2 (by decide)
  exact ⟨h.1, h.2.1 (JVal.jstr "X"), h.2.2.1, h.2.2.2.1, h.2.2.2.2⟩

/-- Claim C2: a token issued at login for a username, verified before the
configured TTL (default 3600 seconds) has elapsed, resolves to exactly that
username; the same token verified after the TTL has elapsed resolves to
none, and any token whose signature key does not match resolves to none —
both checks are applied. -/
theorem c2_token_roundtrip_ttl (key : String) (ttl : Nat) (u : String) (t0 t1 : Nat) :
    (t1 - t0 ≤ ttl → verify_token key ttl t1 (generate_token key u t0) = some u) ∧
    (ttl < t1 - t0 → verify_token key ttl t1 (generate_token key u t0) = none) ∧
    (∀ tok : Token, tok.key ≠ key → verify_token key ttl t1 tok = none) := by
  refine ⟨?_, ?_, ?_⟩
  · intro h
    simp [verify_token, serializer_loads, generate_token, serializer_dumps, h]
  · intro h
    simp [verify_token, serializer_loads, generate_token, serializer_dumps,
      Nat.not_le.mpr h]
  · intro tok h
    simp [verify_token, serializer_loads, h]

/-- Witness for C2 at the default TTL: a token issued at time 50 verifies to
its subject at time 100, fails at time 5000 with TTL 60, and a token signed
with a different key fails. -/
theorem c2_witness :
    verify_token "k" TOKEN_EXPIRATION_SECONDS_default 100
      (generate_token "k" "ana" 50) = some "ana" ∧
    verify_token "k" 60 5000 (generate_token "k" "ana" 50) = none ∧
    verify_token "k" 60 50 (Token.mk "ana" 50 "otra") = none :=
  ⟨(c2_token_roundtrip_ttl "k" TOKEN_EXPIRATION_SECONDS_default "ana" 50 100).1 (by decide),
   (c2_token_roundtrip_ttl "k" 60 "ana" 50 5000).2.1 (by decide),
   (c2_token_roundtrip_ttl "k" 60 "ana" 50 50).2.2 (Token.mk "ana" 50 "otra") (by decide)⟩

/-- Claim C3: user creation fails with a user-facing message when the name or
the password is empty, or when the name already exists — whether the
duplicate is seen by the pre-lookup (`dbLookup`) or only by the uniqueness
constraint of the store at insert time (`dbInsert`) — and in every failure
the store is unchanged; on success the stored record holds
`generate_password_hash password` (a `PasswordHash`, never the plaintext
`String`), and registering the same username again afterwards fails. -/
theorem c3_create_user_validation (dbL dbI : DB) (u p : String) (now : Nat) :
    ((u = "" ∨ p = "") →
      (create_user dbL dbI u p now).1.1 = false ∧ (create_user dbL dbI u p now).2 = dbI) ∧
    ((∃ r ∈ dbL.usuarios, r.usuario = u) →
      (create_user dbL dbI u p now).1.1 = false ∧ (create_user dbL dbI u p now).2 = dbI) ∧
    ((∃ r ∈ dbI.usuarios, r.usuario = u) →
      (create_user dbL dbI u p now).1.1 = false ∧ (create_user dbL dbI u p now).2 = dbI) ∧
    ((create_user dbL dbI u p now).1.1 = true →
      (create_user dbL dbI u p now).2.usuarios =
        dbI.usuarios ++ [UserRow.mk dbI.nextUserId u (generate_password_hash p) now] ∧
      ∀ p' now' : _,
        (create_user (create_user dbL dbI u p now).2 (create_user dbL dbI u p now).2
          u p' now').1.1 = false) := by
  refine ⟨?_, create_user_fail_dup_lookup dbL dbI u p now,
    create_user_fail_dup_insert dbL dbI u p now, ?_⟩
  · rintro (h | h) <;> simp [create_user, h]
  · intro hsucc
    have hok : ∃ db', insertUsuario dbI u (generate_password_hash p) now = Except.ok db' ∧
        create_user dbL dbI u p now = ((true, "Usuario creado con éxito."), db') := by
      unfold create_user at hsucc ⊢
      by_cases h1 : (decide (u = "") || decide (p = "")) = true
      · rw [if_pos h1] at hsucc
        simp at hsucc
      · rw [if_neg h1] at hsucc ⊢
        by_cases h2 : (get_user_by_username dbL u).isSome = true
        · rw [if_pos h2] at hsucc
          simp at hsucc
        · rw [if_neg h2] at hsucc ⊢
          cases hins : insertUsuario dbI u (generate_password_hash p) now with
          | ok db' => exact ⟨db', rfl, rfl⟩
          | error e =>
            rw [hins] at hsucc
            exact Bool.noConfusion hsucc
    obtain ⟨db', hins, heq⟩ := hok
    have hdb' : db' = { dbI with
        usuarios := dbI.usuarios ++
          [UserRow.mk dbI.nextUserId u (generate_password_hash p) now],
        nextUserId := dbI.nextUserId + 1 } := by
      unfold insertUsuario at hins
      split at hins
      · exact absurd hins (by simp)
      · exact (Except.ok.injEq _ _ ▸ hins).symm ▸ rfl
    constructor
    · rw [heq, hdb']
    · intro p' now'
      have hmem : ∃ r ∈ (create_user dbL dbI u p now).2.usuarios, r.usuario = u := by
        rw [heq, hdb']
        exact ⟨UserRow.mk dbI.nextUserId u (generate_password_hash p) now, by simp, rfl⟩
      exact (create_user_fail_dup_lookup _ _ u p' now' hmem).1

/-- Witness for C3: on a store holding only user `ana`, registration fails
for an empty name, for an empty password, for a duplicate seen by the
pre-lookup, and for a duplicate seen only by the insert-time store; on a
fresh store it succeeds for `bo`, stores the hash of the password, and a
second registration of `bo` fails. -/
theorem c3_witness :
    (create_user (DB.mk [UserRow.mk 1 "ana" (PasswordHash.mk "pw") 0] [] 2 1)
      (DB.mk [UserRow.mk 1 "ana" (PasswordHash.mk "pw") 0] [] 2 1) "" "x" 7).1.1 = false ∧
    (create_user (DB.mk [UserRow.mk 1 "ana" (PasswordHash.mk "pw") 0] [] 2 1)
      (DB.mk [UserRow.mk 1 "ana" (PasswordHash.mk "pw") 0] [] 2 1) "bo" "" 7).1.1 = false ∧
    (create_user (DB.mk [UserRow.mk 1 "ana" (PasswordHash.mk "pw") 0] [] 2 1)
      (DB.mk [UserRow.mk 1 "ana" (PasswordHash.mk "pw") 0] [] 2 1) "ana" "x" 7).1.1 = false ∧
    (create_user (DB.mk [] [] 1 1)
      (DB.mk [UserRow.mk 1 "ana" (PasswordHash.mk "pw") 0] [] 2 1) "ana" "x" 7).1.1 = false ∧
    (create_user (DB.mk [] [] 1 1) (DB.mk [] [] 1 1) "bo" "s3" 7).2.usuarios =
      [UserRow.mk 1 "bo" (generate_password_hash "s3") 7] ∧
    (create_user (create_user (DB.mk [] [] 1 1) (DB.mk [] [] 1 1) "bo" "s3" 7).2
      (create_user (DB.mk [] [] 1 1) (DB.mk [] [] 1 1) "bo" "s3" 7).2 "bo" "x" 9).1.1 =
      false := by
  refine ⟨?_, ?_, ?_, ?_, ?_, ?_⟩
  · exact ((c3_create_user_validation
      (DB.mk [UserRow.mk 1 "ana" (PasswordHash.mk "pw") 0] [] 2 1)
      (DB.mk [UserRow.mk 1 "ana" (PasswordHash.mk "pw") 0] [] 2 1) "" "x" 7).1
      (Or.inl rfl)).1
  · exact ((c3_create_user_validation
      (DB.mk [UserRow.mk 1 "ana" (PasswordHash.mk "pw") 0] [] 2 1)
      (DB.mk [UserRow.mk 1 "ana" (PasswordHash.mk "pw") 0] [] 2 1) "bo" "" 7).1
      (Or.inr rfl)).1
  · exact ((c3_create_user_validation _ _ "ana" "x" 7).2.1 (by decide)).1
  · exact ((c3_create_user_validation _ _ "ana" "x" 7).2.2.1 (by decide)).1
  · exact ((c3_create_user_validation (DB.mk [] [] 1 1) (DB.mk [] [] 1 1)
      "bo" "s3" 7).2.2.2 (by decide)).1
  · exact ((c3_create_user_validation (DB.mk [] [] 1 1) (DB.mk [] [] 1 1)
      "bo" "s3" 7).2.2.2 (by decide)).2 "x" 9

/-- Claim C4: the session guard resolves an identity only when the
authorization header has exactly two whitespace-separated parts whose first
part is `Bearer` case-insensitively, in which case the second part is
passed to the token verifier; a missing header, a wrong scheme, one part,
or three or more parts all yield no identity, and the protected route then
answers 401. -/
theorem c4_require_user_bearer_form (verify : String → Option String) (auth : String) :
    require_user verify none = none ∧
    ((pySplit auth).length ≠ 2 → require_user verify (some auth) = none) ∧
    (∀ p0 p1, pySplit auth = [p0, p1] →
      (pyLower p0 = "bearer" → require_user verify (some auth) = verify p1) ∧
      (pyLower p0 ≠ "bearer" → require_user verify (some auth) = none)) ∧
    (require_user verify (some auth) = none → tareas_route verify (some auth) = 401) := by
  have hru : require_user verify (some auth) =
      (match pySplit auth with
       | [p0, p1] => if pyLower p0 = "bearer" then verify p1 else none
       | _ => none) := rfl
  refine ⟨rfl, ?_, ?_, ?_⟩
  · intro hlen
    rw [hru]
    cases h : pySplit auth with
    | nil => rfl
    | cons p0 rest =>
      cases rest with
      | nil => rfl
      | cons p1 rest2 =>
        cases rest2 with
        | nil => exact absurd (by rw [h]; rfl) hlen
        | cons p2 rest3 => rfl
  · intro p0 p1 h
    rw [hru, h]
    constructor
    · intro hb
      show (if pyLower p0 = "bearer" then verify p1 else none) = verify p1
      rw [if_pos hb]
    · intro hb
      show (if pyLower p0 = "bearer" then verify p1 else none) = none
      rw [if_neg hb]
  · intro hnone
    simp [tareas_route, hnone, pyTruthyStr]

/-- Witness for C4 with a concrete verifier: the well-formed header
`bEaReR tok` resolves through the verifier, while a missing header, a
wrong scheme, a token-less header and a three-part header all yield no
identity and a 401 from the protected route. -/
theorem c4_witness :
    require_user (fun s => if s = "tok" then some "ana" else none) none = none ∧
    require_user (fun s => if s = "tok" then some "ana" else none)
      (some "bEaReR tok") = some "ana" ∧
    require_user (fun s => if s = "tok" then some "ana" else none)
      (some "Basic tok") = none ∧
    require_user (fun s => if s = "tok" then some "ana" else none)
      (some "Bearer") = none ∧
    require_user (fun s => if s = "tok" then some "ana" else none)
      (some "Bearer tok extra") = none ∧
    tareas_route (fun s => if s = "tok" then some "ana" else none)
      (some "Basic tok") = 401 := by
  refine ⟨(c4_require_user_bearer_form _ "").1, ?_, ?_, ?_, ?_, ?_⟩
  · have := ((c4_require_user_bearer_form
      (fun s => if s = "tok" then some "ana" else none) "bEaReR tok").2.2.1
      "bEaReR" "tok" (by decide)).1 (by decide)
    rw [this]
    decide
  · exact ((c4_require_user_bearer_form _ "Basic tok").2.2.1
      "Basic" "tok" (by decide)).2 (by decide)
  · exact (c4_require_user_bearer_form _ "Bearer").2.1 (by decide)
  · exact (c4_require_user_bearer_form _ "Bearer tok extra").2.1 (by decide)
  · exact (c4_require_user_bearer_form
      (fun s => if s = "tok" then some "ana" else none) "Basic tok").2.2.2
      (((c4_require_user_bearer_form _ "Basic tok").2.2.1
        "Basic" "tok" (by decide)).2 (by decide))

/-- Claim C5: on an authenticated create request, a title that is empty
after trimming whitespace is rejected with status 400 and the message
`titulo es obligatorio` and no task is stored; otherwise the task is stored
with `hecha = 0` and the response is status 201 carrying the newly
assigned id and the stored (trimmed) title. -/
theorem c5_crear_tarea_title (db : DB) (uid : Nat) (t : Option String) (now : Nat) :
    (pyStrip (t.getD "") = "" →
      crear_tarea db uid t now = (CrearResult.badRequest "titulo es obligatorio", db) ∧
      CrearResult.status (CrearResult.badRequest "titulo es obligatorio") = 400) ∧
    (pyStrip (t.getD "") ≠ "" →
      crear_tarea db uid t now =
        (CrearResult.created db.nextTaskId (pyStrip (t.getD "")),
         { db with
            tareas := db.tareas ++
              [TaskRow.mk db.nextTaskId (pyStrip (t.getD "")) 0 uid now],
            nextTaskId := db.nextTaskId + 1 }) ∧
      CrearResult.status (CrearResult.created db.nextTaskId (pyStrip (t.getD ""))) = 201) := by
  constructor
  · intro h
    exact ⟨by simp [crear_tarea, h], rfl⟩
  · intro h
    exact ⟨by simp [crear_tarea, h], rfl⟩

/-- Witness for C5: a whitespace-only title is rejected with 400 leaving the
store unchanged, and the title `  T  ` is stored trimmed with `hecha = 0`
under the next id. -/
theorem c5_witness :
    crear_tarea (DB.mk [UserRow.mk 1 "ana" (PasswordHash.mk "pw") 0]
        [TaskRow.mk 1 "Tarea" 0 1 0] 2 2) 1 (some "   ") 9 =
      (CrearResult.badRequest "titulo es obligatorio",
       DB.mk [UserRow.mk 1 "ana" (PasswordHash.mk "pw") 0] [TaskRow.mk 1 "Tarea" 0 1 0] 2 2) ∧
    crear_tarea (DB.mk [UserRow.mk 1 "ana" (PasswordHash.mk "pw") 0]
        [TaskRow.mk 1 "Tarea" 0 1 0] 2 2) 1 (some "  T  ") 9 =
      (CrearResult.created 2 "T",
       DB.mk [UserRow.mk 1 "ana" (PasswordHash.mk "pw") 0]
         [TaskRow.mk 1 "Tarea" 0 1 0, TaskRow.mk 2 "T" 0 1 9] 2 3) := by
  constructor
  · exact ((c5_crear_tarea_title _ 1 (some "   ") 9).1 (by decide)).1
  · have := ((c5_crear_tarea_title (DB.mk [UserRow.mk 1 "ana" (PasswordHash.mk "pw") 0]
      [TaskRow.mk 1 "Tarea" 0 1 0] 2 2) 1 (some "  T  ") 9).2 (by decide)).1
    rw [this]
    decide

/-- Claim C9: a login whose username is not registered, or whose password
does not verify against the stored hash, yields the 401 `invalid` outcome,
whose body carries no token; a token is returned only when the username
exists and the password verifies, and then it is exactly the token issued
for that username. -/
theorem c9_login_rejects_bad_credentials (db : DB) (key : String) (ttl now : Nat)
    (u p : String) :
    ((∀ r ∈ db.usuarios, r.usuario ≠ u) →
      login db key ttl now u p = LoginResult.invalid ∧
      LoginResult.status LoginResult.invalid = 401) ∧
    (∀ row, get_user_by_username db u = some row →
      check_password_hash row.password_hash p = false →
      login db key ttl now u p = LoginResult.invalid) ∧
    (∀ tok e, login db key ttl now u p = LoginResult.success tok e →
      ∃ row, get_user_by_username db u = some row ∧
        check_password_hash row.password_hash p = true ∧
        tok = generate_token key u now ∧ e = ttl) := by
  refine ⟨?_, ?_, ?_⟩
  · intro h
    have hn : get_user_by_username db u = none := by
      simp only [get_user_by_username, List.find?_eq_none]
      intro r hr
      simp [h r hr]
    exact ⟨by simp [login, hn], rfl⟩
  · intro row hrow hchk
    simp [login, hrow, hchk]
  · intro tok e hsucc
    unfold login at hsucc
    cases hrow : get_user_by_username db u with
    | none =>
      rw [hrow] at hsucc
      exact absurd hsucc (by simp)
    | some row =>
      rw [hrow] at hsucc
      have hsucc' : (if check_password_hash row.password_hash p = true
          then LoginResult.success (generate_token key u now) ttl
          else LoginResult.invalid) = LoginResult.success tok e := hsucc
      by_cases hchk : check_password_hash row.password_hash p = true
      · rw [if_pos hchk] at hsucc'
        injection hsucc' with h1 h2
        exact ⟨row, rfl, hchk, h1.symm, h2.symm⟩
      · rw [if_neg hchk] at hsucc'
        exact absurd hsucc' (by simp)

/-- Witness for C9: on a store holding `ana` with hash of `pw`, an unknown
username and a wrong password both give the 401 `invalid` outcome, and the
correct credentials give exactly the issued token. -/
theorem c9_witness :
    login (DB.mk [UserRow.mk 1 "ana" (PasswordHash.mk "pw") 0] [] 2 1)
      "k" 3600 5 "zoe" "pw" = LoginResult.invalid ∧
    login (DB.mk [UserRow.mk 1 "ana" (PasswordHash.mk "pw") 0] [] 2 1)
      "k" 3600 5 "ana" "bad" = LoginResult.invalid ∧
    LoginResult.status LoginResult.invalid = 401 ∧
    (∃ row, get_user_by_username
        (DB.mk [UserRow.mk 1 "ana" (PasswordHash.mk "pw") 0] [] 2 1) "ana" = some row ∧
      check_password_hash row.password_hash "pw" = true ∧
      generate_token "k" "ana" 5 = generate_token "k" "ana" 5 ∧
      (3600 : Nat) = 3600) := by
  refine ⟨?_, ?_, rfl, ?_⟩
  · exact ((c9_login_rejects_bad_credentials _ "k" 3600 5 "zoe" "pw").1 (by decide)).1
  · exact (c9_login_rejects_bad_credentials _ "k" 3600 5 "ana" "bad").2.1
      (UserRow.mk 1 "ana" (PasswordHash.mk "pw") 0) (by decide) (by decide)
  · exact (c9_login_rejects_bad_credentials
      (DB.mk [UserRow.mk 1 "ana" (PasswordHash.mk "pw") 0] [] 2 1)
      "k" 3600 5 "ana" "pw").2.2 (generate_token "k" "ana" 5) 3600 (by decide)

theorem actualizar_tarea_hecha_error (db : DB) (uid tid : Nat) (titulo : Option JVal)
    (hv : JVal) (e : String) (hpy : pyInt hv = Except.error e) :
    actualizar_tarea db uid tid titulo (some hv) = (UpdResult.serverError e, db) := by
  have hc : coerceHecha (some hv) = Except.error e := by
    simp [coerceHecha, hpy]
  simp only [actualizar_tarea, hc]

/-- Claim C6 (amended): an authenticated update supplying neither `titulo`
nor `hecha` fails with 400 `Nada para actualizar`; a supplied `hecha` on
which Python `int()` succeeds (booleans, numbers, integer-literal strings)
is coerced to 0/1 — nonzero stored as 1, zero as 0 — while any other
supplied value makes `int()` raise, so the request dies with an uncaught
exception (HTTP 500) and no task row is modified. -/
theorem c6_hecha_coercion_amended (db : DB) (uid tid : Nat) (titulo : Option JVal)
    (hv : JVal) :
    (actualizar_tarea db uid tid none none =
        (UpdResult.badRequest "Nada para actualizar", db) ∧
      UpdResult.status (UpdResult.badRequest "Nada para actualizar") = 400) ∧
    (∀ (n : Int) (db' : DB), pyInt hv = Except.ok n →
      actualizar_tarea db uid tid titulo (some hv) = (UpdResult.ok, db') →
      ∀ r ∈ db'.tareas, r.id = tid → r.usuario_id = uid →
        r.hecha = (if n = 0 then 0 else 1)) ∧
    (∀ e : String, pyInt hv = Except.error e →
      actualizar_tarea db uid tid titulo (some hv) = (UpdResult.serverError e, db) ∧
      UpdResult.status (UpdResult.serverError e) = 500) := by
  refine ⟨⟨rfl, rfl⟩, ?_, ?_⟩
  · intro n db' hpy heq
    rw [actualizar_tarea_hecha_int db uid tid titulo hv n hpy] at heq
    have hdb' : db' = sqlUpdateTareas db uid tid
        (titulo.map (fun t => pyStrip (pyStr t))) (some (if n = 0 then 0 else 1)) :=
      (congrArg Prod.snd heq).symm
    subst hdb'
    intro r hr hid huid
    simp only [sqlUpdateTareas, List.mem_map] at hr
    obtain ⟨r0, hr0, rfl⟩ := hr
    by_cases hhit : hitRow uid tid r0 = true
    · simp [applyUpdate, hhit]
    · have hfalse : hitRow uid tid r0 = false := by simpa using hhit
      have hfix := applyUpdate_not_hit uid tid
        (titulo.map (fun t => pyStrip (pyStr t))) (some (if n = 0 then 0 else 1)) r0
        ((hitRow_false_iff uid tid r0).mp hfalse)
      rw [hfix] at hid huid
      exact absurd ((hitRow_iff uid tid r0).mpr ⟨hid, huid⟩) hhit
  · intro e hpy
    exact ⟨actualizar_tarea_hecha_error db uid tid titulo hv e hpy, rfl⟩

/-- Counterexample to C6 as stated: with a matching owned task present
(`hecha = 0`), supplying `hecha` as the JSON string `"abc"` — a truthy,
nonzero value in Python — is not coerced to 1: `int("abc")` raises
`ValueError`, the request dies with an uncaught exception (HTTP 500, not a
0/1 store), and the table is unchanged. -/
theorem c6_counterexample :
    actualizar_tarea (DB.mk [UserRow.mk 1 "ana" (PasswordHash.mk "pw") 0]
        [TaskRow.mk 1 "Tarea" 0 1 0] 2 2) 1 1 none (some (JVal.jstr "abc")) =
      (UpdResult.serverError "ValueError",
       DB.mk [UserRow.mk 1 "ana" (PasswordHash.mk "pw") 0]
         [TaskRow.mk 1 "Tarea" 0 1 0] 2 2) ∧
    UpdResult.status (UpdResult.serverError "ValueError") = 500 ∧
    UpdResult.serverError "ValueError" ≠ UpdResult.ok := by
  exact ⟨by decide, rfl, by decide⟩

/-- Witness for C6 (amended): on a concrete store, the empty update body is
rejected with 400; `hecha = 5` is stored as 1 on the matching task; and
`hecha = "x"` raises, yielding the 500 outcome with the store unchanged. -/
theorem c6_witness :
    actualizar_tarea (DB.mk [UserRow.mk 1 "ana" (PasswordHash.mk "pw") 0]
        [TaskRow.mk 1 "Tarea" 0 1 0] 2 2) 1 1 none none =
      (UpdResult.badRequest "Nada para actualizar",
       DB.mk [UserRow.mk 1 "ana" (PasswordHash.mk "pw") 0]
         [TaskRow.mk 1 "Tarea" 0 1 0] 2 2) ∧
    (TaskRow.mk 1 "Tarea" 1 1 0).hecha = (if (5 : Int) = 0 then 0 else 1) ∧
    actualizar_tarea (DB.mk [UserRow.mk 1 "ana" (PasswordHash.mk "pw") 0]
        [TaskRow.mk 1 "Tarea" 0 1 0] 2 2) 1 1 none (some (JVal.jstr "x")) =
      (UpdResult.serverError "ValueError",
       DB.mk [UserRow.mk 1 "ana" (PasswordHash.mk "pw") 0]
         [TaskRow.mk 1 "Tarea" 0 1 0] 2 2) := by
  refine ⟨?_, ?_, ?_⟩
  · exact (c6_hecha_coercion_amended (DB.mk [UserRow.mk 1 "ana" (PasswordHash.mk "pw") 0]
      [TaskRow.mk 1 "Tarea" 0 1 0] 2 2) 1 1 none (JVal.jint 0)).1.1
  · exact (c6_hecha_coercion_amended (DB.mk [UserRow.mk 1 "ana" (PasswordHash.mk "pw") 0]
      [TaskRow.mk 1 "Tarea" 0 1 0] 2 2) 1 1 none (JVal.jint 5)).2.1 5
      (DB.mk [UserRow.mk 1 "ana" (PasswordHash.mk "pw") 0]
        [TaskRow.mk 1 "Tarea" 1 1 0] 2 2) rfl (by decide)
      (TaskRow.mk 1 "Tarea" 1 1 0) (by decide) rfl rfl
  · exact ((c6_hecha_coercion_amended (DB.mk [UserRow.mk 1 "ana" (PasswordHash.mk "pw") 0]
      [TaskRow.mk 1 "Tarea" 0 1 0] 2 2) 1 1 none (JVal.jstr "x")).2.2 "ValueError" rfl).1

/-- Claim C7 is violated by the code (`code_bug`): the data-model invariant
says every stored task title is non-empty, and task creation enforces it,
but the update path strips the supplied title without re-checking
emptiness: starting from a store whose titles are all non-empty, an
authenticated `PUT` with `titulo = "   "` succeeds and stores the empty
title. -/
theorem c7_empty_title_code_bug :
    (∀ r ∈ (DB.mk [UserRow.mk 1 "ana" (PasswordHash.mk "pw") 0]
        [TaskRow.mk 1 "Tarea" 0 1 0] 2 2).tareas, r.titulo ≠ "") ∧
    actualizar_tarea (DB.mk [UserRow.mk 1 "ana" (PasswordHash.mk "pw") 0]
        [TaskRow.mk 1 "Tarea" 0 1 0] 2 2) 1 1 (some (JVal.jstr "   ")) none =
      (UpdResult.ok,
       DB.mk [UserRow.mk 1 "ana" (PasswordHash.mk "pw") 0]
         [TaskRow.mk 1 "" 0 1 0] 2 2) ∧
    (∃ r ∈ (actualizar_tarea (DB.mk [UserRow.mk 1 "ana" (PasswordHash.mk "pw") 0]
        [TaskRow.mk 1 "Tarea" 0 1 0] 2 2) 1 1
        (some (JVal.jstr "   ")) none).2.tareas, r.titulo = "") := by
  exact ⟨by decide, by decide, by decide⟩

/-- Claim C8: listing returns exactly the tasks owned by the requesting
user (a permutation of the ownership-filtered table, hence nothing of any
other user), sorted by id descending, and the empty list when the user
owns no task. -/
theorem c8_listar_tareas_order (db : DB) (uid : Nat) :
    List.Perm (listar_tareas db uid)
      (db.tareas.filter (fun r => r.usuario_id == uid)) ∧
    (∀ r ∈ listar_tareas db uid, r.usuario_id = uid) ∧
    (∀ r ∈ db.tareas, r.usuario_id = uid → r ∈ listar_tareas db uid) ∧
    List.Pairwise (fun a b : TaskRow => b.id ≤ a.id) (listar_tareas db uid) ∧
    ((∀ r ∈ db.tareas, r.usuario_id ≠ uid) → listar_tareas db uid = []) := by
  have hperm : List.Perm (listar_tareas db uid)
      (db.tareas.filter (fun r => r.usuario_id == uid)) :=
    List.mergeSort_perm _ _
  refine ⟨hperm, ?_, ?_, ?_, ?_⟩
  · intro r hr
    have hmem := hperm.mem_iff.mp hr
    have := (List.mem_filter.mp hmem).2
    simpa using this
  · intro r hr hu
    exact hperm.mem_iff.mpr (List.mem_filter.mpr ⟨hr, by simp [hu]⟩)
  · have hs := @List.sorted_mergeSort TaskRow
      (fun a b : TaskRow => decide (b.id ≤ a.id))
      (fun a b c hab hbc => by
        simp only [decide_eq_true_eq] at hab hbc ⊢
        exact Nat.le_trans hbc hab)
      (fun a b => by
        rcases Nat.le_total b.id a.id with h | h <;> simp [h])
      (db.tareas.filter (fun r => r.usuario_id == uid))
    exact hs.imp (fun h => by simpa using h)
  · intro h
    have hfil : db.tareas.filter (fun r => r.usuario_id == uid) = [] :=
      List.filter_eq_nil_iff.mpr (fun r hr => by simp [h r hr])
    unfold listar_tareas
    rw [hfil]
    simp

/-- Witness for C8 on a concrete store with tasks 1 and 3 owned by user 1
and task 2 by user 2: the listing for user 1 is a permutation of its
filtered table, contains task 3, is sorted by id descending, and the
listing for user 3 is empty. -/
theorem c8_witness :
    List.Perm (listar_tareas (DB.mk [UserRow.mk 1 "ana" (PasswordHash.mk "pw") 0]
        [TaskRow.mk 1 "A" 0 1 0, TaskRow.mk 2 "B" 0 2 1, TaskRow.mk 3 "C" 0 1 2] 2 4) 1)
      ((DB.mk [UserRow.mk 1 "ana" (PasswordHash.mk "pw") 0]
        [TaskRow.mk 1 "A" 0 1 0, TaskRow.mk 2 "B" 0 2 1, TaskRow.mk 3 "C" 0 1 2] 2 4).tareas.filter
        (fun r => r.usuario_id == 1)) ∧
    TaskRow.mk 3 "C" 0 1 2 ∈ listar_tareas (DB.mk [UserRow.mk 1 "ana" (PasswordHash.mk "pw") 0]
        [TaskRow.mk 1 "A" 0 1 0, TaskRow.mk 2 "B" 0 2 1, TaskRow.mk 3 "C" 0 1 2] 2 4) 1 ∧
    List.Pairwise (fun a b : TaskRow => b.id ≤ a.id)
      (listar_tareas (DB.mk [UserRow.mk 1 "ana" (PasswordHash.mk "pw") 0]
        [TaskRow.mk 1 "A" 0 1 0, TaskRow.mk 2 "B" 0 2 1, TaskRow.mk 3 "C" 0 1 2] 2 4) 1) ∧
    listar_tareas (DB.mk [UserRow.mk 1 "ana" (PasswordHash.mk "pw") 0]
        [TaskRow.mk 1 "A" 0 1 0, TaskRow.mk 2 "B" 0 2 1, TaskRow.mk 3 "C" 0 1 2] 2 4) 3 = [] := by
  refine ⟨?_, ?_, ?_, ?_⟩
  · exact (c8_listar_tareas_order _ 1).1
  · exact (c8_listar_tareas_order (DB.mk [UserRow.mk 1 "ana" (PasswordHash.mk "pw") 0]
      [TaskRow.mk 1 "A" 0 1 0, TaskRow.mk 2 "B" 0 2 1, TaskRow.mk 3 "C" 0 1 2] 2 4) 1).2.2.1
      (TaskRow.mk 3 "C" 0 1 2) (by decide) rfl
  · exact (c8_listar_tareas_order (DB.mk [UserRow.mk 1 "ana" (PasswordHash.mk "pw") 0]
      [TaskRow.mk 1 "A" 0 1 0, TaskRow.mk 2 "B" 0 2 1, TaskRow.mk 3 "C" 0 1 2] 2 4) 1).2.2.2.1
  · exact (c8_listar_tareas_order (DB.mk [UserRow.mk 1 "ana" (PasswordHash.mk "pw") 0]
      [TaskRow.mk 1 "A" 0 1 0, TaskRow.mk 2 "B" 0 2 1, TaskRow.mk 3 "C" 0 1 2] 2 4) 3).2.2.2.2
      (by decide)

/-- Claim C10: a successful update supplying only `hecha` leaves the
`titulo` of every row unchanged, and one supplying only `titulo` leaves
the `hecha` of every row unchanged; in both cases every row keeps its `id`,
`usuario_id` and `creada_en`, rows not matching the target keep all their
fields, and the table keeps its length and order (stated row-by-row via
`Forall₂`). -/
theorem c10_update_frame (db : DB) (uid tid : Nat) :
    (∀ (hv : JVal) (n : Int) (db' : DB), pyInt hv = Except.ok n →
      actualizar_tarea db uid tid none (some hv) = (UpdResult.ok, db') →
      List.Forall₂ (fun r r' : TaskRow =>
        r'.id = r.id ∧ r'.usuario_id = r.usuario_id ∧ r'.creada_en = r.creada_en ∧
        r'.titulo = r.titulo ∧ (¬(r.id = tid ∧ r.usuario_id = uid) → r' = r))
        db.tareas db'.tareas) ∧
    (∀ (tv : JVal) (db' : DB),
      actualizar_tarea db uid tid (some tv) none = (UpdResult.ok, db') →
      List.Forall₂ (fun r r' : TaskRow =>
        r'.id = r.id ∧ r'.usuario_id = r.usuario_id ∧ r'.creada_en = r.creada_en ∧
        r'.hecha = r.hecha ∧ (¬(r.id = tid ∧ r.usuario_id = uid) → r' = r))
        db.tareas db'.tareas) := by
  constructor
  · intro hv n db' hpy heq
    rw [actualizar_tarea_hecha_int db uid tid none hv n hpy] at heq
    have hdb' : db' = sqlUpdateTareas db uid tid
        (Option.map (fun t => pyStrip (pyStr t)) none) (some (if n = 0 then 0 else 1)) :=
      (congrArg Prod.snd heq).symm
    subst hdb'
    apply forall₂_map_self
    intro r hr
    by_cases hhit : hitRow uid tid r = true
    · unfold applyUpdate
      rw [if_pos hhit]
      exact ⟨rfl, rfl, rfl, rfl,
        fun hmiss => absurd ((hitRow_iff uid tid r).mp hhit) hmiss⟩
    · have hfalse : hitRow uid tid r = false := by simpa using hhit
      rw [applyUpdate_not_hit uid tid _ _ r ((hitRow_false_iff uid tid r).mp hfalse)]
      exact ⟨rfl, rfl, rfl, rfl, fun _ => rfl⟩
  · intro tv db' heq
    rw [actualizar_tarea_titulo_only db uid tid tv] at heq
    have hdb' : db' = sqlUpdateTareas db uid tid (some (pyStrip (pyStr tv))) none :=
      (congrArg Prod.snd heq).symm
    subst hdb'
    apply forall₂_map_self
    intro r hr
    by_cases hhit : hitRow uid tid r = true
    · unfold applyUpdate
      rw [if_pos hhit]
      exact ⟨rfl, rfl, rfl, rfl,
        fun hmiss => absurd ((hitRow_iff uid tid r).mp hhit) hmiss⟩
    · have hfalse : hitRow uid tid r = false := by simpa using hhit
      rw [applyUpdate_not_hit uid tid _ _ r ((hitRow_false_iff uid tid r).mp hfalse)]
      exact ⟨rfl, rfl, rfl, rfl, fun _ => rfl⟩

/-- Witness for C10 on a concrete two-task store: updating only `hecha` of
task 1 relates old and new tables row-by-row with `titulo` untouched and
the foreign row fully unchanged, and updating only `titulo` does the same
with `hecha` untouched. -/
theorem c10_witness :
    List.Forall₂ (fun r r' : TaskRow =>
      r'.id = r.id ∧ r'.usuario_id = r.usuario_id ∧ r'.creada_en = r.creada_en ∧
      r'.titulo = r.titulo ∧ (¬(r.id = 1 ∧ r.usuario_id = 1) → r' = r))
      [TaskRow.mk 1 "A" 0 1 0, TaskRow.mk 2 "B" 0 2 1]
      [TaskRow.mk 1 "A" 1 1 0, TaskRow.mk 2 "B" 0 2 1] ∧
    List.Forall₂ (fun r r' : TaskRow =>
      r'.id = r.id ∧ r'.usuario_id = r.usuario_id ∧ r'.creada_en = r.creada_en ∧
      r'.hecha = r.hecha ∧ (¬(r.id = 1 ∧ r.usuario_id = 1) → r' = r))
      [TaskRow.mk 1 "A" 0 1 0, TaskRow.mk 2 "B" 0 2 1]
      [TaskRow.mk 1 "N" 0 1 0, TaskRow.mk 2 "B" 0 2 1] := by
  constructor
  · exact (c10_update_frame (DB.mk [UserRow.mk 1 "ana" (PasswordHash.mk "pw") 0]
      [TaskRow.mk 1 "A" 0 1 0, TaskRow.mk 2 "B" 0 2 1] 2 3) 1 1).1
      (JVal.jint 1) 1
      (DB.mk [UserRow.mk 1 "ana" (PasswordHash.mk "pw") 0]
        [TaskRow.mk 1 "A" 1 1 0, TaskRow.mk 2 "B" 0 2 1] 2 3) rfl (by decide)
  · exact (c10_update_frame (DB.mk [UserRow.mk 1 "ana" (PasswordHash.mk "pw") 0]
      [TaskRow.mk 1 "A" 0 1 0, TaskRow.mk 2 "B" 0 2 1] 2 3) 1 1).2
      (JVal.jstr "N")
      (DB.mk [UserRow.mk 1 "ana" (PasswordHash.mk "pw") 0]
        [TaskRow.mk 1 "N" 0 1 0, TaskRow.mk 2 "B" 0 2 1] 2 3) (by decide)

end PFO2
